import Mathlib

/-!
Shallow embedding of the FindRival backend (src/main.py, src/schemas.py):
a FastAPI service over a Mongo-style document store, with team registration,
geo-indexed nearby search, and a match-request lifecycle
(send / accept / reject / confirm / list).

Modelling conventions:
- Python floats are modelled as rationals (ℚ); Python `int(x)` is truncation
  toward zero (`pyInt`).
- The document store holds each collection as a list of documents in
  store-natural (insertion) order.  `find_one` returns the first document
  matching the `_id` filter; `update_one` updates the first matching document
  and reports its matched count; `find(filt).limit(n)` returns the matching
  documents truncated at `n`.
- `bson.ObjectId(s)` raises `InvalidId` unless `s` is a 24-character hex
  string; `objectId?` returns `none` exactly in the raising case, and the
  endpoints surface that unhandled exception as `ApiError.exn` (a server
  fault), distinct from `ApiError.http` (a `fastapi.HTTPException`).
- The store's native spherical distance for `$near` queries is abstracted as
  a parameter `dist` (meters from a document's location to the query point);
  the store's nearest-first ordering is delegated to the store and no theorem
  below asserts anything about result order.
- Whether the `$near` query raises (malformed geo filter / missing geo index)
  and whether the Firebase `send_multicast` call raises are oracles passed in
  as parameters (`geoFailure`, `fcmRaises`), since both are external calls.
-/

set_option autoImplicit false

namespace FindRival

/-- GeoJSON point from `schemas.GeoPoint`: `type` is the literal "Point" and
`coordinates` is validated to hold exactly two floats `[lng, lat]`, modelled
as a pair of rationals. -/
structure GeoPoint where
  type : String := "Point"
  coordinates : ℚ × ℚ
  deriving DecidableEq

/-- `schemas.Availability`: weekday tags plus an optional timeslot tag
defaulting to "any". -/
structure Availability where
  days : List String := []
  timeslot : Option String := some "any"
  deriving DecidableEq

/-- `schemas.Team`: the request body for team registration. -/
structure Team where
  owner_uid : String
  name : String
  sport : String
  location : GeoPoint
  address : Option String := none
  players : List String := []
  availability : Availability := {}
  device_tokens : List String := []
  deriving DecidableEq

/-- `schemas.MatchRequest`: the request body for match-request creation.
`status` defaults to "pending" when the caller supplies none, exactly as the
pydantic field default. -/
structure MatchRequest where
  from_team_id : String
  to_team_id : String
  status : String := "pending"
  proposed_time : Option String := none
  notes : Option String := none
  deriving DecidableEq

/-- `schemas.TeamPublic`: the response model for team endpoints.  Note that it
has no owner-uid and no device-tokens field. -/
structure TeamPublic where
  id : String
  name : String
  sport : String
  location : GeoPoint
  address : Option String := none
  players : List String := []
  availability : Availability := {}
  deriving DecidableEq

/-- `schemas.MatchRequestPublic`: the response model for match-request
endpoints. -/
structure MatchRequestPublic where
  id : String
  from_team_id : String
  to_team_id : String
  status : String
  proposed_time : Option String := none
  notes : Option String := none
  deriving DecidableEq

/-- A persisted document of the `team` collection: the inserted `Team` fields
plus the store-assigned `_id` (written `oid`). -/
structure TeamDoc extends Team where
  oid : String
  deriving DecidableEq

/-- A persisted document of the `matchrequest` collection: the inserted
`MatchRequest` fields plus the store-assigned `_id` (written `oid`). -/
structure ReqDoc extends MatchRequest where
  oid : String
  deriving DecidableEq

/-- Modelled from the spec: the Document Store Adapter (`database.py`, absent
from `src/`) exposes generic insert/find operations against named collections;
"each Pydantic model represents a collection in MongoDB".  The store state is
the two collections used by `main.py`, each in store-natural (insertion)
order. -/
structure DB where
  team : List TeamDoc := []
  matchrequest : List ReqDoc := []
  deriving DecidableEq

/-- How the server surfaces a failure: `http` is a raised
`fastapi.HTTPException` with a status code and detail string; `exn` is an
unhandled Python exception, i.e. a server fault. -/
inductive ApiError where
  | http (status : Nat) (detail : String)
  | exn (msg : String)
  deriving DecidableEq

/-- Character class accepted by `bson.ObjectId` for hex ids
(`0-9`, `a-f`, `A-F`). -/
def isHexChar (c : Char) : Bool :=
  c.isDigit
    || (decide (97 ≤ c.toNat) && decide (c.toNat ≤ 102))
    || (decide (65 ≤ c.toNat) && decide (c.toNat ≤ 70))

/-- `bson.ObjectId(s)` accepts exactly the 24-character hex strings (otherwise
it raises `InvalidId`). -/
def isValidOid (s : String) : Bool :=
  s.length == 24 && s.data.all isHexChar

/-- `bson.ObjectId` as a fallible conversion: `none` models the `InvalidId`
exception, `some` the successful conversion (ids are kept as their hex
string). -/
def objectId? (s : String) : Option String :=
  if isValidOid s then some s else none

/-- Python `int()` on a float: truncation toward zero. -/
def pyInt (q : ℚ) : ℤ :=
  if q < 0 then ⌈q⌉ else ⌊q⌋

/-- `collection.find_one({"_id": oid})` on the team collection: first document
whose `_id` matches. -/
def findOneTeam : List TeamDoc → String → Option TeamDoc
  | [], _ => none
  | t :: ts, oid => if t.oid = oid then some t else findOneTeam ts oid

/-- `collection.find_one({"_id": oid})` on the matchrequest collection. -/
def findOneReq : List ReqDoc → String → Option ReqDoc
  | [], _ => none
  | d :: ds, oid => if d.oid = oid then some d else findOneReq ds oid

/-- `{d with status := st}`: the effect of `{"$set": {"status": st}}` on one
document. -/
def ReqDoc.setStatus (d : ReqDoc) (st : String) : ReqDoc :=
  { d with status := st }

/-- `collection.update_one({"_id": oid}, {"$set": {"status": st}})`: update
the first matching document; the second component is `matched_count`. -/
def updateOneStatus : List ReqDoc → String → String → List ReqDoc × Nat
  | [], _, _ => ([], 0)
  | d :: ds, oid, st =>
    if d.oid = oid then (d.setStatus st :: ds, 1)
    else
      let r := updateOneStatus ds oid st
      (d :: r.1, r.2)

/-- `main._req_public`: shape a stored matchrequest document into the public
response model. -/
def reqPublic (d : ReqDoc) : MatchRequestPublic :=
  { id := d.oid, from_team_id := d.from_team_id, to_team_id := d.to_team_id,
    status := d.status, proposed_time := d.proposed_time, notes := d.notes }

/-- The `TeamPublic` built from a stored team document, as in the loop bodies
of `list_teams` / `nearby_teams` (the document always carries every field it
was inserted with, so the `.get(..., default)` defaults never fire). -/
def teamPublicOfDoc (t : TeamDoc) : TeamPublic :=
  { id := t.oid, name := t.name, sport := t.sport, location := t.location,
    address := t.address, players := t.players, availability := t.availability }

/-- `main.create_team` (POST /teams).  The 2dsphere index creation is
best-effort with failures ignored and has no observable effect on the data,
so it is not modelled.  Modelled from the spec: `create_document` (in
`database.py`, absent from `src/`) inserts the record into the named
collection and returns the store-assigned identifier, passed here as
`insertedId`.  The response is built from the input fields plus the new id. -/
def create_team (db : DB) (team : Team) (insertedId : String) : TeamPublic × DB :=
  let db2 : DB := { db with team := db.team ++ [{ toTeam := team, oid := insertedId }] }
  ({ id := insertedId, name := team.name, sport := team.sport,
     location := team.location, address := team.address, players := team.players,
     availability := team.availability }, db2)

/-- The Mongo filter built by `main.nearby_teams`: a `$near` clause with
`$maxDistance := int(max_km * 1000)` meters, plus a `sport` equality key when
the `sport` query parameter is truthy and an `availability.timeslot` equality
key when `timeslot` is truthy (Python `if sport:` — the empty string adds no
key). -/
structure NearFilter where
  centerLng : ℚ
  centerLat : ℚ
  maxDistance : ℤ
  sport : Option String
  timeslot : Option String
  deriving DecidableEq

/-- Build the `nearby_teams` filter from the query parameters. -/
def nearbyFilter (lng lat max_km : ℚ) (sport timeslot : Option String) : NearFilter :=
  { centerLng := lng, centerLat := lat, maxDistance := pyInt (max_km * 1000),
    sport := match sport with
      | some s => if s = "" then none else some s
      | none => none,
    timeslot := match timeslot with
      | some ts => if ts = "" then none else some ts
      | none => none }

/-- Whether a stored team document matches the nearby filter, per the store's
query semantics: within `$maxDistance` meters of the center under the store's
spherical distance `dist`, and equal on each equality key present. -/
def teamMatchesNear (dist : GeoPoint → ℚ × ℚ → ℚ) (f : NearFilter) (t : TeamDoc) : Bool :=
  decide (dist t.location (f.centerLng, f.centerLat) ≤ (f.maxDistance : ℚ))
    && (match f.sport with
        | none => true
        | some s => t.sport == s)
    && (match f.timeslot with
        | none => true
        | some ts => t.availability.timeslot == some ts)

/-- `main.nearby_teams` (GET /teams/nearby).  `dist` abstracts the store's
spherical distance; `geoFailure = some e` models `db.team.find(filt)` raising
(malformed geo filter / missing geo index) with message `e`, caught and
re-raised as HTTP 400; the store's nearest-first result order is delegated to
the store, so matching documents are kept in store order here. -/
def nearby_teams (db : DB) (dist : GeoPoint → ℚ × ℚ → ℚ) (geoFailure : Option String)
    (lng lat : ℚ) (max_km : ℚ) (sport timeslot : Option String) :
    Except ApiError (List TeamPublic) :=
  let filt := nearbyFilter lng lat max_km sport timeslot
  match geoFailure with
  | some e => Except.error (ApiError.http 400 ("Geo query failed: " ++ e))
  | none =>
    Except.ok (((db.team.filter (teamMatchesNear dist filt)).take 50).map teamPublicOfDoc)

/-- `main.send_match_request` (POST /match-requests).  Validates, in order,
`ObjectId(from_team_id)` then its team lookup, then `ObjectId(to_team_id)`
then its lookup, raising 404 naming the missing id when a lookup fails (and
an unhandled `InvalidId` when a conversion fails).  On success inserts the
request model as given (modelled from the spec: `create_document` persists
the record and returns its assigned id, passed here as `newId`), then
best-effort dispatches a push notification whose failure — no device tokens,
team document absent at dispatch time, or `send_multicast` raising
(`fcmRaises`) — is swallowed.  Returns the public record together with the
final store state; on error the store is returned unchanged. -/
def send_match_request (db : DB) (req : MatchRequest) (newId : String)
    (fcmRaises : Bool) : Except ApiError MatchRequestPublic × DB :=
  match objectId? req.from_team_id with
  | none => (Except.error (ApiError.exn ("InvalidId: " ++ req.from_team_id)), db)
  | some fromOid =>
    match findOneTeam db.team fromOid with
    | none =>
      (Except.error (ApiError.http 404 ("Team " ++ req.from_team_id ++ " not found")), db)
    | some _ =>
      match objectId? req.to_team_id with
      | none => (Except.error (ApiError.exn ("InvalidId: " ++ req.to_team_id)), db)
      | some toOid =>
        match findOneTeam db.team toOid with
        | none =>
          (Except.error (ApiError.http 404 ("Team " ++ req.to_team_id ++ " not found")), db)
        | some _ =>
          let db2 : DB := { db with matchrequest := db.matchrequest ++ [{ toMatchRequest := req, oid := newId }] }
          let _dispatched : Except String Unit :=
            match findOneTeam db2.team toOid with
            | some toTeam =>
              if toTeam.device_tokens.isEmpty then Except.ok ()
              else if fcmRaises then Except.error "FCM send failed" else Except.ok ()
            | none => Except.ok ()
          (Except.ok { id := newId, from_team_id := req.from_team_id,
                       to_team_id := req.to_team_id, status := req.status,
                       proposed_time := req.proposed_time, notes := req.notes }, db2)

/-- Common body of `main.accept_request` / `reject_request` /
`confirm_request`: convert the path id (`InvalidId` is unhandled, a server
fault), `update_one` setting the status, 404 when `matched_count == 0`,
otherwise re-read the document with `find_one` and shape it with
`_req_public` (a `find_one` miss at that point would make `_req_public`
dereference `None`, another server fault). -/
def updateRequestStatus (db : DB) (request_id : String) (newStatus : String) :
    Except ApiError MatchRequestPublic × DB :=
  match objectId? request_id with
  | none => (Except.error (ApiError.exn ("InvalidId: " ++ request_id)), db)
  | some oid =>
    let r := updateOneStatus db.matchrequest oid newStatus
    let db2 : DB := { db with matchrequest := r.1 }
    if r.2 = 0 then (Except.error (ApiError.http 404 "Request not found"), db2)
    else
      match findOneReq db2.matchrequest oid with
      | some d => (Except.ok (reqPublic d), db2)
      | none => (Except.error (ApiError.exn "NoneType has no attribute get"), db2)

/-- `main.accept_request` (POST /match-requests/{id}/accept). -/
def accept_request (db : DB) (request_id : String) :
    Except ApiError MatchRequestPublic × DB :=
  updateRequestStatus db request_id "accepted"

/-- `main.reject_request` (POST /match-requests/{id}/reject). -/
def reject_request (db : DB) (request_id : String) :
    Except ApiError MatchRequestPublic × DB :=
  updateRequestStatus db request_id "rejected"

/-- `main.confirm_request` (POST /match-requests/{id}/confirm). -/
def confirm_request (db : DB) (request_id : String) :
    Except ApiError MatchRequestPublic × DB :=
  updateRequestStatus db request_id "confirmed"

/-- The matchrequest filter built by `main.list_match_requests`: for a truthy
`team_id` it is `{"$or": [{"from_team_id": x}, {"to_team_id": x}]}`, matched
here as a predicate. -/
def reqInvolvesTeam (x : String) (d : ReqDoc) : Bool :=
  d.from_team_id == x || d.to_team_id == x

/-- `main.list_match_requests` (GET /match-requests): find with the optional
participation filter (Python `if team_id:` — absent or empty means the empty
filter), truncated at 100 in store-natural order, shaped by `_req_public`. -/
def list_match_requests (db : DB) (team_id : Option String) : List MatchRequestPublic :=
  match team_id with
  | some x =>
    if x = "" then (db.matchrequest.take 100).map reqPublic
    else ((db.matchrequest.filter (reqInvolvesTeam x)).take 100).map reqPublic
  | none => (db.matchrequest.take 100).map reqPublic

/-! ### Helper lemmas about the store operations -/

theorem objectId?_of_valid {s : String} (h : isValidOid s = true) :
    objectId? s = some s := by
  simp [objectId?, h]

theorem objectId?_of_invalid {s : String} (h : isValidOid s = false) :
    objectId? s = none := by
  simp [objectId?, h]

theorem ReqDoc.oid_setStatus (d : ReqDoc) (st : String) :
    (d.setStatus st).oid = d.oid := rfl

theorem ReqDoc.status_setStatus (d : ReqDoc) (st : String) :
    (d.setStatus st).status = st := rfl

theorem ReqDoc.setStatus_setStatus (d : ReqDoc) (st : String) :
    (d.setStatus st).setStatus st = d.setStatus st := rfl

theorem DB.with_matchrequest_self (db : DB) :
    { db with matchrequest := db.matchrequest } = db := by
  cases db
  rfl

theorem updateOneStatus_of_findOneReq_none {l : List ReqDoc} {oid : String}
    (st : String) (h : findOneReq l oid = none) :
    updateOneStatus l oid st = (l, 0) := by
  induction l with
  | nil => rfl
  | cons d ds ih =>
    by_cases hd : d.oid = oid
    · simp [findOneReq, hd] at h
    · simp only [findOneReq, hd, if_false, ite_false] at h
      simp [updateOneStatus, hd, ih h]

theorem updateOneStatus_of_findOneReq_some {l : List ReqDoc} {oid : String}
    {d : ReqDoc} (st : String) (h : findOneReq l oid = some d) :
    (updateOneStatus l oid st).2 = 1 ∧
    findOneReq (updateOneStatus l oid st).1 oid = some (d.setStatus st) := by
  induction l with
  | nil => simp [findOneReq] at h
  | cons d0 ds ih =>
    by_cases hd : d0.oid = oid
    · simp only [findOneReq, hd, if_true, ite_true, Option.some.injEq] at h
      subst h
      refine ⟨by simp [updateOneStatus, hd], ?_⟩
      simp [updateOneStatus, hd, findOneReq, ReqDoc.oid_setStatus]
    · simp only [findOneReq, hd, if_false, ite_false] at h
      obtain ⟨h1, h2⟩ := ih h
      refine ⟨by simpa [updateOneStatus, hd] using h1, ?_⟩
      simpa [updateOneStatus, hd, findOneReq] using h2

theorem updateOneStatus_idem (l : List ReqDoc) (oid st : String) :
    updateOneStatus (updateOneStatus l oid st).1 oid st = updateOneStatus l oid st := by
  induction l with
  | nil => rfl
  | cons d ds ih =>
    by_cases hd : d.oid = oid
    · simp [updateOneStatus, hd, ReqDoc.oid_setStatus, ReqDoc.setStatus_setStatus]
    · simp [updateOneStatus, hd, ih]

theorem updateRequestStatus_invalid {db : DB} {rid : String} (st : String)
    (hv : isValidOid rid = false) :
    updateRequestStatus db rid st =
      (Except.error (ApiError.exn ("InvalidId: " ++ rid)), db) := by
  simp [updateRequestStatus, objectId?_of_invalid hv]

theorem updateRequestStatus_not_found {db : DB} {rid : String} (st : String)
    (hv : isValidOid rid = true) (h : findOneReq db.matchrequest rid = none) :
    updateRequestStatus db rid st =
      (Except.error (ApiError.http 404 "Request not found"), db) := by
  simp only [updateRequestStatus, objectId?_of_valid hv,
    updateOneStatus_of_findOneReq_none st h]
  simp [DB.with_matchrequest_self]

theorem updateRequestStatus_found {db : DB} {rid : String} {d : ReqDoc} (st : String)
    (hv : isValidOid rid = true) (h : findOneReq db.matchrequest rid = some d) :
    updateRequestStatus db rid st =
      (Except.ok (reqPublic (d.setStatus st)),
       { db with matchrequest := (updateOneStatus db.matchrequest rid st).1 }) := by
  obtain ⟨h1, h2⟩ := updateOneStatus_of_findOneReq_some st h
  simp [updateRequestStatus, objectId?_of_valid hv, h1, h2]

theorem updateRequestStatus_idem {db db2 : DB} {rid st : String}
    {pub : MatchRequestPublic}
    (h : updateRequestStatus db rid st = (Except.ok pub, db2)) :
    updateRequestStatus db2 rid st = (Except.ok pub, db2) := by
  by_cases hv : isValidOid rid = true
  · cases hfind : findOneReq db.matchrequest rid with
    | none =>
      rw [updateRequestStatus_not_found st hv hfind] at h
      exact absurd (congrArg Prod.fst h) (by simp)
    | some d =>
      rw [updateRequestStatus_found st hv hfind] at h
      obtain ⟨hpub, hdb⟩ := Prod.mk.injEq .. ▸ h
      obtain ⟨h1, h2⟩ := updateOneStatus_of_findOneReq_some st hfind
      have hmr : db2.matchrequest = (updateOneStatus db.matchrequest rid st).1 := by
        rw [← hdb]
      have hfind2 : findOneReq db2.matchrequest rid = some (d.setStatus st) := by
        rw [hmr]; exact h2
      rw [updateRequestStatus_found st hv hfind2]
      have hupd : updateOneStatus db2.matchrequest rid st =
          updateOneStatus db.matchrequest rid st := by
        rw [hmr, updateOneStatus_idem]
      rw [ReqDoc.setStatus_setStatus, hupd, ← hmr, DB.with_matchrequest_self, hpub]
  · rw [updateRequestStatus_invalid st (by simpa using hv)] at h
    exact absurd (congrArg Prod.fst h) (by simp)

theorem send_invalid_from {db : DB} {req : MatchRequest} (newId : String)
    (fcmRaises : Bool) (h : isValidOid req.from_team_id = false) :
    send_match_request db req newId fcmRaises =
      (Except.error (ApiError.exn ("InvalidId: " ++ req.from_team_id)), db) := by
  simp [send_match_request, objectId?_of_invalid h]

theorem send_from_missing {db : DB} {req : MatchRequest} (newId : String)
    (fcmRaises : Bool) (hv : isValidOid req.from_team_id = true)
    (h : findOneTeam db.team req.from_team_id = none) :
    send_match_request db req newId fcmRaises =
      (Except.error (ApiError.http 404 ("Team " ++ req.from_team_id ++ " not found")), db) := by
  simp [send_match_request, objectId?_of_valid hv, h]

theorem send_invalid_to {db : DB} {req : MatchRequest} {tf : TeamDoc} (newId : String)
    (fcmRaises : Bool) (hv : isValidOid req.from_team_id = true)
    (hf : findOneTeam db.team req.from_team_id = some tf)
    (h : isValidOid req.to_team_id = false) :
    send_match_request db req newId fcmRaises =
      (Except.error (ApiError.exn ("InvalidId: " ++ req.to_team_id)), db) := by
  simp [send_match_request, objectId?_of_valid hv, hf, objectId?_of_invalid h]

theorem send_to_missing {db : DB} {req : MatchRequest} {tf : TeamDoc} (newId : String)
    (fcmRaises : Bool) (hv : isValidOid req.from_team_id = true)
    (hf : findOneTeam db.team req.from_team_id = some tf)
    (hv2 : isValidOid req.to_team_id = true)
    (h : findOneTeam db.team req.to_team_id = none) :
    send_match_request db req newId fcmRaises =
      (Except.error (ApiError.http 404 ("Team " ++ req.to_team_id ++ " not found")), db) := by
  simp [send_match_request, objectId?_of_valid hv, hf, objectId?_of_valid hv2, h]

theorem send_success {db : DB} {req : MatchRequest} {tf tt : TeamDoc} (newId : String)
    (fcmRaises : Bool) (hv : isValidOid req.from_team_id = true)
    (hf : findOneTeam db.team req.from_team_id = some tf)
    (hv2 : isValidOid req.to_team_id = true)
    (ht : findOneTeam db.team req.to_team_id = some tt) :
    send_match_request db req newId fcmRaises =
      (Except.ok { id := newId, from_team_id := req.from_team_id,
                   to_team_id := req.to_team_id, status := req.status,
                   proposed_time := req.proposed_time, notes := req.notes },
       { db with matchrequest := db.matchrequest ++ [{ toMatchRequest := req, oid := newId }] }) := by
  simp [send_match_request, objectId?_of_valid hv, hf, objectId?_of_valid hv2, ht]

/-! ### Sample store contents used by concrete instantiations -/

/-- A geo point at the origin. -/
def sampleLoc : GeoPoint := { coordinates := (0, 0) }

/-- A valid 24-hex object id for team A. -/
def oidA : String := "aaaaaaaaaaaaaaaaaaaaaaaa"

/-- A valid 24-hex object id for team B. -/
def oidB : String := "bbbbbbbbbbbbbbbbbbbbbbbb"

/-- A valid 24-hex object id for a match request. -/
def oidR : String := "cccccccccccccccccccccccc"

/-- A valid 24-hex object id matching no stored document. -/
def oidMissing : String := "dddddddddddddddddddddddd"

/-- A sample team owned by user u1. -/
def teamA : Team :=
  { owner_uid := "u1", name := "Alpha", sport := "soccer", location := sampleLoc }

/-- A sample team owned by user u2, with no device tokens. -/
def teamB : Team :=
  { owner_uid := "u2", name := "Beta", sport := "soccer", location := sampleLoc }

/-- A store holding teams A and B and no match requests. -/
def sampleDB : DB :=
  { team := [{ toTeam := teamA, oid := oidA }, { toTeam := teamB, oid := oidB }] }

/-- A match-request creation body whose caller-supplied status is "accepted". -/
def reqAccepted : MatchRequest :=
  { from_team_id := oidA, to_team_id := oidB, status := "accepted" }

/-- A stored match request from A to B whose current status is "accepted". -/
def rdAcc : ReqDoc :=
  { from_team_id := oidA, to_team_id := oidB, status := "accepted", oid := oidR }

/-- A store holding one match request, currently accepted. -/
def dbAcc : DB :=
  { team := [{ toTeam := teamA, oid := oidA }, { toTeam := teamB, oid := oidB }],
    matchrequest := [rdAcc] }

/-- A match-request creation body whose from-team id is not a well-formed
object id. -/
def reqBadFrom : MatchRequest := { from_team_id := "xyz", to_team_id := oidB }

/-- A store holding only team A. -/
def dbOnlyA : DB := { team := [{ toTeam := teamA, oid := oidA }] }

/-- A match-request creation body whose to-team id is well formed but matches
no stored team. -/
def reqToMissing : MatchRequest := { from_team_id := oidA, to_team_id := oidMissing }

/-- The public record returned by the C1 concrete send. -/
def pubC1 : MatchRequestPublic :=
  { id := oidR, from_team_id := oidA, to_team_id := oidB, status := "accepted" }

/-- The store state after the C1 concrete send. -/
def dbC1 : DB :=
  { team := sampleDB.team, matchrequest := [{ toMatchRequest := reqAccepted, oid := oidR }] }

/-! ### Claims -/

/-- C1 (counterexample): a creation call whose caller supplies status
"accepted", against a store where both teams exist, persists and returns a
record with status "accepted", not "pending" — `send_match_request` never
forces the status to "pending". -/
theorem c1_counterexample :
    (send_match_request sampleDB reqAccepted oidR false).1 =
      Except.ok { id := oidR, from_team_id := oidA, to_team_id := oidB,
                  status := "accepted", proposed_time := none, notes := none } ∧
    (send_match_request sampleDB reqAccepted oidR false).2.matchrequest =
      [{ toMatchRequest := reqAccepted, oid := oidR }] ∧
    reqAccepted.status = "accepted" ∧ ("accepted" : String) ≠ "pending" :=
  ⟨rfl, rfl, rfl, by decide⟩

/-- C1 (amended): for every successful match-request creation call, the
record persisted by send and the record it returns both carry exactly the
caller-supplied status (which defaults to "pending" only when the caller
supplies none, per the schema default). -/
theorem c1_status_passthrough (db db2 : DB) (req : MatchRequest) (newId : String)
    (fcmRaises : Bool) (pub : MatchRequestPublic)
    (h : send_match_request db req newId fcmRaises = (Except.ok pub, db2)) :
    pub.status = req.status ∧
    db2.matchrequest.getLast? = some { toMatchRequest := req, oid := newId } ∧
    (∀ a b : String,
      ({ from_team_id := a, to_team_id := b } : MatchRequest).status = "pending") := by
  by_cases hv : isValidOid req.from_team_id = true
  · cases hf : findOneTeam db.team req.from_team_id with
    | none =>
      rw [send_from_missing newId fcmRaises hv hf] at h
      exact absurd (congrArg Prod.fst h) (by simp)
    | some tf =>
      by_cases hv2 : isValidOid req.to_team_id = true
      · cases ht : findOneTeam db.team req.to_team_id with
        | none =>
          rw [send_to_missing newId fcmRaises hv hf hv2 ht] at h
          exact absurd (congrArg Prod.fst h) (by simp)
        | some tt =>
          rw [send_success newId fcmRaises hv hf hv2 ht] at h
          obtain ⟨hpub, hdb⟩ := Prod.mk.injEq .. ▸ h
          refine ⟨?_, ?_, fun a b => rfl⟩
          · rw [← Except.ok.inj hpub]
          · rw [← hdb]
            exact List.getLast?_concat _
      · rw [send_invalid_to newId fcmRaises hv hf (by simpa using hv2)] at h
        exact absurd (congrArg Prod.fst h) (by simp)
  · rw [send_invalid_from newId fcmRaises (by simpa using hv)] at h
    exact absurd (congrArg Prod.fst h) (by simp)

/-- C1 witness: the amended claim at a concrete input. -/
theorem c1_status_passthrough_witness :
    pubC1.status = reqAccepted.status ∧
    dbC1.matchrequest.getLast? = some { toMatchRequest := reqAccepted, oid := oidR } ∧
    (∀ a b : String,
      ({ from_team_id := a, to_team_id := b } : MatchRequest).status = "pending") :=
  c1_status_passthrough sampleDB dbC1 reqAccepted oidR false pubC1 rfl

/-- C2: for every well-formed request id, accept / reject / confirm each set
the matching record's status to their fixed literal regardless of its current
status (the stored record `d` is arbitrary), fail with the 404 "Request not
found" error (store unchanged) when no record matches, and on success return
the updated record as re-read from the store by `find_one`. -/
theorem c2_transitions (db : DB) (rid : String) (hv : isValidOid rid = true) :
    (findOneReq db.matchrequest rid = none →
      accept_request db rid = (Except.error (ApiError.http 404 "Request not found"), db) ∧
      reject_request db rid = (Except.error (ApiError.http 404 "Request not found"), db) ∧
      confirm_request db rid = (Except.error (ApiError.http 404 "Request not found"), db)) ∧
    (∀ d, findOneReq db.matchrequest rid = some d →
      (accept_request db rid =
        (Except.ok (reqPublic (d.setStatus "accepted")),
         { db with matchrequest := (updateOneStatus db.matchrequest rid "accepted").1 }) ∧
       findOneReq (updateOneStatus db.matchrequest rid "accepted").1 rid =
         some (d.setStatus "accepted")) ∧
      (reject_request db rid =
        (Except.ok (reqPublic (d.setStatus "rejected")),
         { db with matchrequest := (updateOneStatus db.matchrequest rid "rejected").1 }) ∧
       findOneReq (updateOneStatus db.matchrequest rid "rejected").1 rid =
         some (d.setStatus "rejected")) ∧
      (confirm_request db rid =
        (Except.ok (reqPublic (d.setStatus "confirmed")),
         { db with matchrequest := (updateOneStatus db.matchrequest rid "confirmed").1 }) ∧
       findOneReq (updateOneStatus db.matchrequest rid "confirmed").1 rid =
         some (d.setStatus "confirmed"))) ∧
    (∀ (d : ReqDoc) (st : String), (d.setStatus st).status = st) := by
  refine ⟨fun h => ⟨?_, ?_, ?_⟩, fun d h => ⟨⟨?_, ?_⟩, ⟨?_, ?_⟩, ⟨?_, ?_⟩⟩, fun d st => rfl⟩
  · exact updateRequestStatus_not_found "accepted" hv h
  · exact updateRequestStatus_not_found "rejected" hv h
  · exact updateRequestStatus_not_found "confirmed" hv h
  · exact updateRequestStatus_found "accepted" hv h
  · exact (updateOneStatus_of_findOneReq_some "accepted" h).2
  · exact updateRequestStatus_found "rejected" hv h
  · exact (updateOneStatus_of_findOneReq_some "rejected" h).2
  · exact updateRequestStatus_found "confirmed" hv h
  · exact (updateOneStatus_of_findOneReq_some "confirmed" h).2

/-- C2 witness: confirm applied to a currently accepted request succeeds and
yields status "confirmed"; its hypotheses are discharged at a concrete
store. -/
theorem c2_transitions_witness :
    (confirm_request dbAcc oidR =
      (Except.ok (reqPublic (rdAcc.setStatus "confirmed")),
       { dbAcc with matchrequest := (updateOneStatus dbAcc.matchrequest oidR "confirmed").1 }) ∧
     findOneReq (updateOneStatus dbAcc.matchrequest oidR "confirmed").1 oidR =
       some (rdAcc.setStatus "confirmed")) ∧
    rdAcc.status = "accepted" ∧ (rdAcc.setStatus "confirmed").status = "confirmed" :=
  ⟨((c2_transitions dbAcc oidR (by decide)).2.1 rdAcc rfl).2.2, rfl, rfl⟩

/-- C3: for every creation call whose team ids are well-formed object ids, a
missing from-team (checked first) or missing to-team yields the 404 error
naming that identifier, and the store is returned unchanged — no
match-request record is persisted. -/
theorem c3_send_missing_team (db : DB) (req : MatchRequest) (newId : String)
    (fcmRaises : Bool) (hf : isValidOid req.from_team_id = true)
    (ht : isValidOid req.to_team_id = true) :
    (findOneTeam db.team req.from_team_id = none →
      send_match_request db req newId fcmRaises =
        (Except.error (ApiError.http 404 ("Team " ++ req.from_team_id ++ " not found")), db)) ∧
    (∀ tdoc, findOneTeam db.team req.from_team_id = some tdoc →
      findOneTeam db.team req.to_team_id = none →
      send_match_request db req newId fcmRaises =
        (Except.error (ApiError.http 404 ("Team " ++ req.to_team_id ++ " not found")), db)) :=
  ⟨fun h => send_from_missing newId fcmRaises hf h,
   fun _ hft h => send_to_missing newId fcmRaises hf hft ht h⟩

/-- C3 witness: sending from existing team A to a well-formed but absent
to-team id fails with 404 naming that id and leaves the store unchanged. -/
theorem c3_send_missing_team_witness :
    send_match_request dbOnlyA reqToMissing oidR false =
      (Except.error (ApiError.http 404 ("Team " ++ oidMissing ++ " not found")), dbOnlyA) :=
  (c3_send_missing_team dbOnlyA reqToMissing oidR false (by decide) (by decide)).2
    { toTeam := teamA, oid := oidA } rfl rfl

/-- A team input with a device token, owned by owner-1. -/
def teamOwner1 : Team :=
  { owner_uid := "owner-1", name := "Gamma", sport := "tennis", location := sampleLoc,
    device_tokens := ["tok1"] }

/-- A team input identical to `teamOwner1` except for its owner and device
tokens. -/
def teamOwner2 : Team :=
  { owner_uid := "owner-2", name := "Gamma", sport := "tennis", location := sampleLoc,
    device_tokens := [] }

/-- A match-request creation body carrying the default status. -/
def reqPending : MatchRequest := { from_team_id := oidA, to_team_id := oidB }

/-- A stored match request from A to B with the default pending status. -/
def rdPend : ReqDoc := { from_team_id := oidA, to_team_id := oidB, oid := oidR }

/-- A store holding one pending match request. -/
def dbPend : DB := { team := sampleDB.team, matchrequest := [rdPend] }

/-- The store after accepting the pending request of `dbPend`. -/
def dbPostAcc : DB :=
  { team := sampleDB.team, matchrequest := [rdPend.setStatus "accepted"] }

/-- The public record returned by accepting the pending request of
`dbPend`. -/
def pubAcc : MatchRequestPublic := reqPublic (rdPend.setStatus "accepted")

/-- C6 (counterexample): two team inputs that differ only in their owner
identifier and device tokens register to identical returned records, so those
two input fields are not reflected in the returned record (`TeamPublic` has
no such fields). -/
theorem c6_counterexample :
    (create_team {} teamOwner1 oidA).1 = (create_team {} teamOwner2 oidA).1 ∧
    teamOwner1.owner_uid ≠ teamOwner2.owner_uid ∧
    teamOwner1.device_tokens ≠ teamOwner2.device_tokens :=
  ⟨rfl, by decide, by decide⟩

/-- C6 (amended): for every valid team input, register returns a record whose
name, sport, location, address, players and availability equal the input's,
together with the assigned non-empty identifier; the full input (owner uid
and device tokens included) is persisted to the store, but those two fields
are omitted from the returned record. -/
theorem c6_register_fields (db : DB) (team : Team) (insertedId : String)
    (h : insertedId ≠ "") :
    (create_team db team insertedId).1.id = insertedId ∧
    (create_team db team insertedId).1.id ≠ "" ∧
    (create_team db team insertedId).1.name = team.name ∧
    (create_team db team insertedId).1.sport = team.sport ∧
    (create_team db team insertedId).1.location = team.location ∧
    (create_team db team insertedId).1.address = team.address ∧
    (create_team db team insertedId).1.players = team.players ∧
    (create_team db team insertedId).1.availability = team.availability ∧
    (create_team db team insertedId).2.team.getLast? =
      some { toTeam := team, oid := insertedId } :=
  ⟨rfl, h, rfl, rfl, rfl, rfl, rfl, rfl, List.getLast?_concat _⟩

/-- C6 witness: the amended claim at a concrete team input and assigned id. -/
theorem c6_register_fields_witness :
    (create_team {} teamA oidA).1.id = oidA ∧
    (create_team {} teamA oidA).1.id ≠ "" ∧
    (create_team {} teamA oidA).1.name = teamA.name ∧
    (create_team {} teamA oidA).1.sport = teamA.sport ∧
    (create_team {} teamA oidA).1.location = teamA.location ∧
    (create_team {} teamA oidA).1.address = teamA.address ∧
    (create_team {} teamA oidA).1.players = teamA.players ∧
    (create_team {} teamA oidA).1.availability = teamA.availability ∧
    (create_team {} teamA oidA).2.team.getLast? = some { toTeam := teamA, oid := oidA } :=
  c6_register_fields {} teamA oidA (by decide)

/-- C7: for every creation call whose (well-formed) team ids both resolve to
stored teams, the result is the successful insertion and public record, and
it is identical whether or not the notification dispatch raises — dispatch
failure (no tokens, absent team document, or a raising messaging call) never
fails the operation. -/
theorem c7_dispatch_failure_swallowed (db : DB) (req : MatchRequest) (newId : String)
    (fcmRaises : Bool) (tf tt : TeamDoc)
    (hfv : isValidOid req.from_team_id = true)
    (htv : isValidOid req.to_team_id = true)
    (hfe : findOneTeam db.team req.from_team_id = some tf)
    (hte : findOneTeam db.team req.to_team_id = some tt) :
    send_match_request db req newId fcmRaises =
      (Except.ok { id := newId, from_team_id := req.from_team_id,
                   to_team_id := req.to_team_id, status := req.status,
                   proposed_time := req.proposed_time, notes := req.notes },
       { db with matchrequest := db.matchrequest ++ [{ toMatchRequest := req, oid := newId }] }) ∧
    send_match_request db req newId fcmRaises = send_match_request db req newId false :=
  ⟨send_success newId fcmRaises hfv hfe htv hte,
   (send_success newId fcmRaises hfv hfe htv hte).trans
     (send_success newId false hfv hfe htv hte).symm⟩

/-- C7 witness: sending from A to B, where B has no device tokens, with a
raising messaging call, still succeeds with status "pending". -/
theorem c7_dispatch_failure_swallowed_witness :
    send_match_request sampleDB reqPending oidR true =
      (Except.ok { id := oidR, from_team_id := oidA, to_team_id := oidB,
                   status := "pending", proposed_time := none, notes := none },
       { team := sampleDB.team,
         matchrequest := [{ toMatchRequest := reqPending, oid := oidR }] }) ∧
    send_match_request sampleDB reqPending oidR true =
      send_match_request sampleDB reqPending oidR false :=
  c7_dispatch_failure_swallowed sampleDB reqPending oidR true
    { toTeam := teamA, oid := oidA } { toTeam := teamB, oid := oidB }
    (by decide) (by decide) rfl rfl

/-- C8: for every nearby query on which the store's geo query raises with
message `e`, the endpoint fails with the client error HTTP 400 carrying
"Geo query failed: " followed by the underlying message — not a server
fault. -/
theorem c8_geo_failure_400 (db : DB) (dist : GeoPoint → ℚ × ℚ → ℚ) (e : String)
    (lng lat max_km : ℚ) (sport timeslot : Option String) :
    nearby_teams db dist (some e) lng lat max_km sport timeslot =
      Except.error (ApiError.http 400 ("Geo query failed: " ++ e)) := rfl

/-- C9: the transition endpoints are idempotent — a second accept (likewise
reject, confirm) on the store produced by a successful first one returns the
same record and leaves the store in the same state. -/
theorem c9_transition_idempotent (db db2 : DB) (rid : String) (pub : MatchRequestPublic) :
    (accept_request db rid = (Except.ok pub, db2) →
      accept_request db2 rid = (Except.ok pub, db2)) ∧
    (reject_request db rid = (Except.ok pub, db2) →
      reject_request db2 rid = (Except.ok pub, db2)) ∧
    (confirm_request db rid = (Except.ok pub, db2) →
      confirm_request db2 rid = (Except.ok pub, db2)) :=
  ⟨fun h => updateRequestStatus_idem h, fun h => updateRequestStatus_idem h,
   fun h => updateRequestStatus_idem h⟩

/-- C9 witness: accepting a concrete pending request twice gives the same
record and store as accepting it once. -/
theorem c9_transition_idempotent_witness :
    accept_request dbPend oidR = (Except.ok pubAcc, dbPostAcc) ∧
    accept_request dbPostAcc oidR = (Except.ok pubAcc, dbPostAcc) :=
  ⟨rfl, (c9_transition_idempotent dbPend dbPostAcc oidR pubAcc).1 rfl⟩

/-- C10: with a malformed (non-ObjectId) id, the ObjectId conversion raises
an unhandled exception — a server fault — before any existence check: send
with a malformed from-team id, and accept / reject / confirm with a malformed
request id, all fail with the server fault and not the documented 404, even
against an empty store; by contrast a well-formed absent id does get the
documented 404. -/
theorem c10_invalid_objectid_bypass :
    send_match_request {} reqBadFrom oidR false =
      (Except.error (ApiError.exn ("InvalidId: " ++ "xyz")), ({} : DB)) ∧
    accept_request {} "xyz" =
      (Except.error (ApiError.exn ("InvalidId: " ++ "xyz")), ({} : DB)) ∧
    reject_request {} "xyz" =
      (Except.error (ApiError.exn ("InvalidId: " ++ "xyz")), ({} : DB)) ∧
    confirm_request {} "xyz" =
      (Except.error (ApiError.exn ("InvalidId: " ++ "xyz")), ({} : DB)) ∧
    (∀ (code : Nat) (detail : String),
      ApiError.exn ("InvalidId: " ++ "xyz") ≠ ApiError.http code detail) ∧
    accept_request {} oidMissing =
      (Except.error (ApiError.http 404 "Request not found"), ({} : DB)) :=
  ⟨rfl, rfl, rfl, rfl, fun _ _ h => ApiError.noConfusion h, rfl⟩

theorem pyInt_le_self {q : ℚ} (h : 0 ≤ q) : (pyInt q : ℚ) ≤ q := by
  simp only [pyInt, if_neg (not_lt.mpr h)]
  exact Int.floor_le q

theorem teamMatchesNear_eq_true {dist : GeoPoint → ℚ × ℚ → ℚ} {f : NearFilter}
    {t : TeamDoc} (h : teamMatchesNear dist f t = true) :
    dist t.location (f.centerLng, f.centerLat) ≤ (f.maxDistance : ℚ) ∧
    (∀ s, f.sport = some s → t.sport = s) ∧
    (∀ ts, f.timeslot = some ts → t.availability.timeslot = some ts) := by
  simp only [teamMatchesNear, Bool.and_eq_true, decide_eq_true_eq] at h
  obtain ⟨⟨h1, h2⟩, h3⟩ := h
  refine ⟨h1, ?_, ?_⟩
  · intro s hs
    rw [hs] at h2
    simpa [beq_iff_eq] using h2
  · intro ts hts
    rw [hts] at h3
    simpa [beq_iff_eq] using h3

theorem nearbyFilter_sport_of (lng lat max_km : ℚ) {sport : Option String}
    {s : String} (hs : sport = some s) (hne : s ≠ "") (timeslot : Option String) :
    (nearbyFilter lng lat max_km sport timeslot).sport = some s := by
  subst hs
  simp [nearbyFilter, hne]

theorem nearbyFilter_timeslot_of (lng lat max_km : ℚ) (sport : Option String)
    {timeslot : Option String} {ts : String} (hts : timeslot = some ts)
    (hne : ts ≠ "") :
    (nearbyFilter lng lat max_km sport timeslot).timeslot = some ts := by
  subst hts
  simp [nearbyFilter, hne]

/-- C4: for every nearby query with a nonnegative radius, the result list
holds at most 50 teams; when a (non-empty) sport parameter is given every
returned team has exactly that sport; when a (non-empty) timeslot parameter
is given every returned team has exactly that availability timeslot; the
`$maxDistance` radius passed to the store is `max_km` converted to meters by
`int(max_km * 1000)`, so every returned team is within `max_km * 1000` meters
of the query point under the store distance. -/
theorem c4_nearby_filtered_capped (db : DB) (dist : GeoPoint → ℚ × ℚ → ℚ)
    (lng lat max_km : ℚ) (sport timeslot : Option String) (hk : 0 ≤ max_km) :
    ∃ res, nearby_teams db dist none lng lat max_km sport timeslot = Except.ok res ∧
      res.length ≤ 50 ∧
      (∀ s, sport = some s → s ≠ "" → ∀ p ∈ res, p.sport = s) ∧
      (∀ ts, timeslot = some ts → ts ≠ "" → ∀ p ∈ res, p.availability.timeslot = some ts) ∧
      (nearbyFilter lng lat max_km sport timeslot).maxDistance = pyInt (max_km * 1000) ∧
      (∀ p ∈ res, dist p.location (lng, lat) ≤ max_km * 1000) := by
  have hmem : ∀ p ∈ ((db.team.filter
        (teamMatchesNear dist (nearbyFilter lng lat max_km sport timeslot))).take 50).map
          teamPublicOfDoc,
      ∃ t : TeamDoc,
        teamMatchesNear dist (nearbyFilter lng lat max_km sport timeslot) t = true ∧
        p = teamPublicOfDoc t := by
    intro p hp
    obtain ⟨t, ht, hpt⟩ := List.mem_map.mp hp
    exact ⟨t, (List.mem_filter.mp (List.take_subset _ _ ht)).2, hpt.symm⟩
  refine ⟨_, rfl, ?_, ?_, ?_, rfl, ?_⟩
  · simp only [List.length_map, List.length_take]
    exact min_le_left _ _
  · intro s hs hne p hp
    obtain ⟨t, hmatch, rfl⟩ := hmem p hp
    exact (teamMatchesNear_eq_true hmatch).2.1 s
      (nearbyFilter_sport_of lng lat max_km hs hne timeslot)
  · intro ts hts hne p hp
    obtain ⟨t, hmatch, rfl⟩ := hmem p hp
    exact (teamMatchesNear_eq_true hmatch).2.2 ts
      (nearbyFilter_timeslot_of lng lat max_km sport hts hne)
  · intro p hp
    obtain ⟨t, hmatch, rfl⟩ := hmem p hp
    have h1 := (teamMatchesNear_eq_true hmatch).1
    have h2 : ((nearbyFilter lng lat max_km sport timeslot).maxDistance : ℚ) ≤
        max_km * 1000 := by
      have hq : (0 : ℚ) ≤ max_km * 1000 := mul_nonneg hk (by norm_num)
      simpa [nearbyFilter] using pyInt_le_self hq
    exact h1.trans h2

/-- C4 witness: the claim at a concrete store, distance function and query. -/
theorem c4_nearby_filtered_capped_witness :
    ∃ res, nearby_teams sampleDB (fun _ _ => 0) none 0 0 2 (some "soccer") none =
      Except.ok res ∧
      res.length ≤ 50 ∧
      (∀ s, (some "soccer" : Option String) = some s → s ≠ "" → ∀ p ∈ res, p.sport = s) ∧
      (∀ ts, (none : Option String) = some ts → ts ≠ "" →
        ∀ p ∈ res, p.availability.timeslot = some ts) ∧
      (nearbyFilter 0 0 2 (some "soccer") none).maxDistance = pyInt (2 * 1000) ∧
      (∀ p ∈ res, (fun (_ : GeoPoint) (_ : ℚ × ℚ) => (0 : ℚ)) p.location (0, 0) ≤ 2 * 1000) :=
  c4_nearby_filtered_capped sampleDB (fun _ _ => 0) 0 0 2 (some "soccer") none
    (by norm_num)

/-- C5: for every non-empty team id `x`, the listed records are exactly the
stored requests in which `x` appears as sender or receiver (complete whenever
at most 100 match, always sound), capped at 100; with no team id all stored
requests are returned, likewise capped at 100. -/
theorem c5_list_requests (db : DB) (x : String) (hx : x ≠ "") :
    (∀ p ∈ list_match_requests db (some x), ∃ d, d ∈ db.matchrequest ∧
        (d.from_team_id = x ∨ d.to_team_id = x) ∧ p = reqPublic d) ∧
    ((db.matchrequest.filter (reqInvolvesTeam x)).length ≤ 100 →
      ∀ d ∈ db.matchrequest, d.from_team_id = x ∨ d.to_team_id = x →
        reqPublic d ∈ list_match_requests db (some x)) ∧
    (list_match_requests db (some x)).length ≤ 100 ∧
    (db.matchrequest.length ≤ 100 →
      list_match_requests db none = db.matchrequest.map reqPublic) ∧
    (list_match_requests db none).length ≤ 100 := by
  have hdef : list_match_requests db (some x) =
      ((db.matchrequest.filter (reqInvolvesTeam x)).take 100).map reqPublic := by
    simp [list_match_requests, hx]
  refine ⟨?_, ?_, ?_, ?_, ?_⟩
  · intro p hp
    rw [hdef] at hp
    obtain ⟨d, hd, hpd⟩ := List.mem_map.mp hp
    have hd2 := List.mem_filter.mp (List.take_subset _ _ hd)
    refine ⟨d, hd2.1, ?_, hpd.symm⟩
    simpa [reqInvolvesTeam, Bool.or_eq_true, beq_iff_eq] using hd2.2
  · intro hlen d hd hor
    rw [hdef, List.take_of_length_le hlen]
    refine List.mem_map_of_mem _ (List.mem_filter.mpr ⟨hd, ?_⟩)
    simpa [reqInvolvesTeam, Bool.or_eq_true, beq_iff_eq] using hor
  · rw [hdef]
    simp only [List.length_map, List.length_take]
    exact min_le_left _ _
  · intro hlen
    simp [list_match_requests, List.take_of_length_le hlen]
  · simp only [list_match_requests, List.length_map, List.length_take]
    exact min_le_left _ _

/-- C5 witness: the claim at a concrete store and team id. -/
theorem c5_list_requests_witness :
    (∀ p ∈ list_match_requests dbPend (some oidA), ∃ d, d ∈ dbPend.matchrequest ∧
        (d.from_team_id = oidA ∨ d.to_team_id = oidA) ∧ p = reqPublic d) ∧
    ((dbPend.matchrequest.filter (reqInvolvesTeam oidA)).length ≤ 100 →
      ∀ d ∈ dbPend.matchrequest, d.from_team_id = oidA ∨ d.to_team_id = oidA →
        reqPublic d ∈ list_match_requests dbPend (some oidA)) ∧
    (list_match_requests dbPend (some oidA)).length ≤ 100 ∧
    (dbPend.matchrequest.length ≤ 100 →
      list_match_requests dbPend none = dbPend.matchrequest.map reqPublic) ∧
    (list_match_requests dbPend none).length ≤ 100 :=
  c5_list_requests dbPend oidA (by decide)

end FindRival
